import Mathlib

/-!
Shallow embedding of `src/calculator.py` (a tokenizer / shunting-yard parser /
tree evaluator for arithmetic expressions) and proofs about it.

Modelling conventions:

* Python exceptions are modelled by `Except PyErr`: `ValueError` (with its
  message), `IndexError` (raised by `list.pop()` on an empty list) and
  `KeyError` (raised by `dict[k]` when `k` is missing) each get a constructor.
* Python `float` (IEEE-754 double) is idealized as an exact value domain
  `Val`: a real number, `inf`, `-inf` or `nan`.  Rounding and overflow are not
  modelled; the special values are propagated following IEEE-754 where the
  source relies on them.  All arithmetic appearing in the theorems below is
  exact in double precision, so the idealization is faithful there.
* Python lists used as stacks (append / pop at the right end) are modelled as
  Lean lists with the stack top at the head.
* Python dicts with string keys are modelled as association lists
  (`List (String × _)`, looked up with `List.lookup`).
* The `while` loops of the source advance through a quantity that strictly
  decreases (remaining input, operator-stack height); they are modelled with
  a fuel argument initialized to that quantity, so every definition is
  structurally recursive and computes by kernel reduction.  The fuel-exhausted
  branches are unreachable for the initializations used by the source.
-/

/-- Python exceptions that the calculator can raise: `ValueError` carries its
message, `IndexError` is `list.pop` on an empty list, `KeyError` is a failed
`dict[...]` subscript. -/
inductive PyErr where
  | valueError (msg : String)
  | indexError
  | keyError (key : String)
deriving DecidableEq, Repr

/-! ## Lexer (`create_token_patterns`, `match_token_at_position`,
`tokenize_expression`, lines 19–27 and 61–79 and 196–214 of the source)

The fixed regex patterns of `create_token_patterns` are embedded directly as
matching functions on the remaining input (a `List Char`):

* `\d+(?:\.\d+)?`  → `matchNumber`
* `sin|cos|tan|sqrt|log|exp|abs` → `firstMatchingKeyword function_keywords`
* `pi|e` → `firstMatchingKeyword constant_keywords`
* `[\+\-\*/\^]` → `matchCharOf operator_chars`
* `[\(\)]` → `matchCharOf paren_chars`
* `\s+` → `matchSpace` (token type `none`, i.e. Python `None`: discarded)

`re.Pattern.match(expression, position)` anchors the match at `position` but
places no requirement on what follows the match; each matcher therefore
returns the matched characters and the remaining suffix. -/

/-- The character class `\s` of the source's whitespace pattern (ASCII part:
space, tab, newline, carriage return, vertical tab, form feed). -/
def isPySpace (c : Char) : Bool :=
  c = ' ' || c = '\t' || c = '\n' || c = '\r' || c = '\x0b' || c = '\x0c'

/-- Keyword alternatives of the `FUNCTION` pattern, in the source's order. -/
def function_keywords : List String :=
  ["sin", "cos", "tan", "sqrt", "log", "exp", "abs"]

/-- Keyword alternatives of the `CONSTANT` pattern, in the source's order. -/
def constant_keywords : List String := ["pi", "e"]

/-- Characters of the `OPERATOR` pattern `[\+\-\*/\^]`. -/
def operator_chars : List Char := ['+', '-', '*', '/', '^']

/-- Characters of the `PAREN` pattern `[\(\)]`. -/
def paren_chars : List Char := ['(', ')']

/-- The pattern `\d+(?:\.\d+)?`: one or more digits, optionally followed by a
dot and one or more digits (greedy, as the regex backtracks out of the
optional group when no digit follows the dot). -/
def matchNumber (s : List Char) : Option (List Char × List Char) :=
  let int_part := s.takeWhile Char.isDigit
  if int_part.isEmpty then none
  else
    match s.dropWhile Char.isDigit with
    | '.' :: r2 =>
      let frac := r2.takeWhile Char.isDigit
      if frac.isEmpty then some (int_part, '.' :: r2)
      else some (int_part ++ '.' :: frac, r2.dropWhile Char.isDigit)
    | r => some (int_part, r)

/-- Ordered alternation `k1|k2|...` of literal keywords: the first alternative
that matches at the current position wins, and it matches as a plain prefix of
the remaining input (`re.match` anchors only the start of the match). -/
def firstMatchingKeyword (keywords : List String) (s : List Char) :
    Option (List Char × List Char) :=
  match keywords with
  | [] => none
  | k :: rest =>
    if k.data.isPrefixOf s then some (k.data, s.drop k.data.length)
    else firstMatchingKeyword rest s

/-- A single-character class such as `[\+\-\*/\^]`. -/
def matchCharOf (chars : List Char) (s : List Char) :
    Option (List Char × List Char) :=
  match s with
  | [] => none
  | c :: rest => if c ∈ chars then some ([c], rest) else none

/-- The pattern `\s+`: one or more whitespace characters, greedy. -/
def matchSpace (s : List Char) : Option (List Char × List Char) :=
  let sp := s.takeWhile isPySpace
  if sp.isEmpty then none else some (sp, s.dropWhile isPySpace)

/-- `match_token_at_position`, working on the remaining suffix of the input:
try the six patterns in the fixed priority order of `create_token_patterns`
and return the token type (`none` for whitespace), the matched characters and
the remaining suffix.  Returns `none` when no pattern matches. -/
def matchTokenAt (s : List Char) : Option (Option String × List Char × List Char) :=
  match matchNumber s with
  | some (m, r) => some (some "NUMBER", m, r)
  | none =>
  match firstMatchingKeyword function_keywords s with
  | some (m, r) => some (some "FUNCTION", m, r)
  | none =>
  match firstMatchingKeyword constant_keywords s with
  | some (m, r) => some (some "CONSTANT", m, r)
  | none =>
  match matchCharOf operator_chars s with
  | some (m, r) => some (some "OPERATOR", m, r)
  | none =>
  match matchCharOf paren_chars s with
  | some (m, r) => some (some "PAREN", m, r)
  | none =>
  match matchSpace s with
  | some (m, r) => some (none, m, r)
  | none => none

/-- `match_token_at_position(expression, position, patterns)` in its original
position-based form: the result is `(token_type, value, match.end())`. -/
def match_token_at_position (expression : String) (position : Nat) :
    Option (Option String × String × Nat) :=
  match matchTokenAt (expression.data.drop position) with
  | none => none
  | some (tt, m, _) => some (tt, String.mk m, position + m.length)

/-- The `while position < len(expression)` loop of `tokenize_expression`.
The fuel argument bounds the number of iterations; it is initialized to the
input length, which suffices because every successful match consumes at least
one character.  On an unmatched character the loop raises
`ValueError(f'Некорректный символ: {c}')`. -/
def tokenizeLoop (fuel : Nat) (s : List Char) :
    Except PyErr (List (String × String)) :=
  match fuel, s with
  | _, [] => .ok []
  | 0, _ :: _ => .ok []
  | fuel' + 1, c :: cs =>
    match matchTokenAt (c :: cs) with
    | none => .error (.valueError ("Некорректный символ: " ++ String.mk [c]))
    | some (token_type, m, rest) =>
      match tokenizeLoop fuel' rest with
      | .error e => .error e
      | .ok tokens =>
        match token_type with
        | some t => .ok ((t, String.mk m) :: tokens)
        | none => .ok tokens

/-- `tokenize_expression(expression, patterns)`: list of `(type, value)`
tokens, or the `ValueError` for the first unmatched character. -/
def tokenize_expression (expression : String) :
    Except PyErr (List (String × String)) :=
  tokenizeLoop expression.length expression.data

/-! ## Value domain

Python `float` (IEEE-754 double) idealized as an exact domain: a real number,
`inf`, `-inf` or `nan`.  Arithmetic on finite values is exact real arithmetic
(no rounding, no overflow); special values follow IEEE-754 / Python `float`
semantics where determinable.  Everything from here on may mention `ℝ`, so the
definitions live in a `noncomputable section`. -/

noncomputable section

open scoped Classical

/-- An idealized IEEE-754 double. -/
inductive Val where
  | num (x : ℝ)
  | inf
  | neginf
  | nan

namespace Val

/-- The `'+'` entry of `create_operations_map`: `lambda a, b: a + b`. -/
def add : Val → Val → Val
  | num a, num b => num (a + b)
  | nan, _ => nan
  | _, nan => nan
  | inf, neginf => nan
  | neginf, inf => nan
  | inf, _ => inf
  | _, inf => inf
  | neginf, _ => neginf
  | _, neginf => neginf

/-- The `'-'` entry: `lambda a, b: a - b`. -/
def sub : Val → Val → Val
  | num a, num b => num (a - b)
  | nan, _ => nan
  | _, nan => nan
  | inf, inf => nan
  | neginf, neginf => nan
  | inf, _ => inf
  | neginf, _ => neginf
  | _, inf => neginf
  | _, neginf => inf

/-- The `'*'` entry: `lambda a, b: a * b`. -/
def mul : Val → Val → Val
  | num a, num b => num (a * b)
  | nan, _ => nan
  | _, nan => nan
  | inf, inf => inf
  | inf, neginf => neginf
  | neginf, inf => neginf
  | neginf, neginf => inf
  | inf, num b => if 0 < b then inf else if b < 0 then neginf else nan
  | num a, inf => if 0 < a then inf else if a < 0 then neginf else nan
  | neginf, num b => if 0 < b then neginf else if b < 0 then inf else nan
  | num a, neginf => if 0 < a then neginf else if a < 0 then inf else nan

/-- IEEE division `a / b`, the branch of the `'/'` entry taken when `b != 0`
(a divisor of `±inf` or `nan` compares unequal to `0` in Python, so those
cases take this branch as well). -/
def divIEEE : Val → Val → Val
  | num a, num b => num (a / b)
  | nan, _ => nan
  | _, nan => nan
  | inf, inf => nan
  | inf, neginf => nan
  | neginf, inf => nan
  | neginf, neginf => nan
  | inf, num b => if 0 ≤ b then inf else neginf
  | neginf, num b => if 0 ≤ b then neginf else inf
  | num _, inf => num 0
  | num _, neginf => num 0

/-- The `'/'` entry: `lambda a, b: a / b if b != 0 else float('inf')`.
The test looks only at the divisor, so a divisor of exactly zero yields
positive infinity for every dividend. -/
def div (a b : Val) : Val :=
  match b with
  | num x => if x = 0 then inf else divIEEE a (num x)
  | _ => divIEEE a b

/-- The `'^'` entry: `lambda a, b: a ** b`, idealized with real exponentiation
(`Real.rpow`) on finite values and the IEEE `pow` conventions on special
values.  CAVEAT: Python's `**` raises `OverflowError` when the result
overflows a double (e.g. `2.0 ** 10000`), raises `ZeroDivisionError` for
`0.0 ** negative`, and returns a complex (non-float) value for a negative
finite base with a fractional exponent; this total function collapses those
three paths, so no theorem below classifies evaluation errors across `'^'`
applications.  The only theorem applying `pow` (`claim5_...`) stays on small
positive finite operands, where Python and this model agree exactly. -/
def pow : Val → Val → Val
  | num a, num b => num (a ^ b)
  | num a, nan => if a = 1 then num 1 else nan
  | nan, num b => if b = 0 then num 1 else nan
  | nan, nan => nan
  | nan, inf => nan
  | nan, neginf => nan
  | inf, nan => nan
  | neginf, nan => nan
  | num a, inf => if |a| < 1 then num 0 else if |a| = 1 then num 1 else inf
  | num a, neginf => if |a| < 1 then inf else if |a| = 1 then num 1 else num 0
  | inf, num b => if 0 < b then inf else if b < 0 then num 0 else num 1
  | neginf, num b =>
      if 0 < b then (if ∃ k : ℤ, b = 2 * k + 1 then neginf else inf)
      else if b < 0 then num 0 else num 1
  | inf, inf => inf
  | inf, neginf => num 0
  | neginf, inf => inf
  | neginf, neginf => num 0

/-- Python unary minus `-x`, used by `evaluate_unary_node` for `'u-'`. -/
def neg : Val → Val
  | num a => num (-a)
  | inf => neginf
  | neginf => inf
  | nan => nan

/-- `math.sin`: `nan` maps to `nan`, an infinite argument raises
`ValueError("math domain error")`. -/
def sinF : Val → Except PyErr Val
  | num x => .ok (num (Real.sin x))
  | nan => .ok nan
  | _ => .error (.valueError "math domain error")

/-- `math.cos`: as for `math.sin`. -/
def cosF : Val → Except PyErr Val
  | num x => .ok (num (Real.cos x))
  | nan => .ok nan
  | _ => .error (.valueError "math domain error")

/-- `math.tan`: as for `math.sin`. -/
def tanF : Val → Except PyErr Val
  | num x => .ok (num (Real.tan x))
  | nan => .ok nan
  | _ => .error (.valueError "math domain error")

/-- The `'sqrt'` entry: `lambda x: math.sqrt(x) if x >= 0 else float('nan')`
(`inf >= 0` is true in Python, `-inf >= 0` and `nan >= 0` are false). -/
def sqrtF : Val → Except PyErr Val
  | num x => .ok (if 0 ≤ x then num (Real.sqrt x) else nan)
  | inf => .ok inf
  | neginf => .ok nan
  | nan => .ok nan

/-- `math.log` (unguarded in the source): raises
`ValueError("math domain error")` on a non-positive finite argument and on
`-inf`; `log(inf) = inf` and `log(nan) = nan`. -/
def logF : Val → Except PyErr Val
  | num x =>
      if 0 < x then .ok (num (Real.log x))
      else .error (.valueError "math domain error")
  | inf => .ok inf
  | neginf => .error (.valueError "math domain error")
  | nan => .ok nan

/-- `math.exp`.  CAVEAT: on a large finite argument (e.g. `exp(1000)`) Python
raises `OverflowError("math range error")`; the unbounded idealized domain
collapses this overflow path to a finite result.  No theorem below classifies
or otherwise depends on `exp`'s error behaviour. -/
def expF : Val → Except PyErr Val
  | num x => .ok (num (Real.exp x))
  | inf => .ok inf
  | neginf => .ok (num 0)
  | nan => .ok nan

/-- The `'abs'` entry: Python's builtin `abs`. -/
def absF : Val → Except PyErr Val
  | num x => .ok (num |x|)
  | inf => .ok inf
  | neginf => .ok inf
  | nan => .ok nan

end Val

/-- Type of the binary-operator behavior map (`create_operations_map`). -/
abbrev OpsMap := List (String × (Val → Val → Val))

/-- Type of the function behavior map (`create_functions_map`); an entry may
raise, as `math.log` does. -/
abbrev FnsMap := List (String × (Val → Except PyErr Val))

/-- `create_constants_map()` (lines 29–33): `{'pi': math.pi, 'e': math.e}`. -/
def create_constants_map : List (String × ℝ) :=
  [("pi", Real.pi), ("e", Real.exp 1)]

/-- `create_operations_map()` (lines 35–42). -/
def create_operations_map : OpsMap :=
  [("+", Val.add), ("-", Val.sub), ("*", Val.mul), ("/", Val.div), ("^", Val.pow)]

/-- `create_functions_map()` (lines 44–53). -/
def create_functions_map : FnsMap :=
  [("sin", Val.sinF), ("cos", Val.cosF), ("tan", Val.tanF), ("sqrt", Val.sqrtF),
   ("log", Val.logF), ("exp", Val.expF), ("abs", Val.absF)]

/-- `create_precedence_map()` (lines 55–56). -/
def create_precedence_map : List (String × Nat) :=
  [("+", 1), ("-", 1), ("*", 2), ("/", 2), ("^", 3), ("u-", 4), ("u+", 4)]

/-- `create_right_associative_set()` (lines 58–59), as a list. -/
def create_right_associative_set : List String := ["^", "u-", "u+"]

/-- The module-level name `operations`, assigned `create_operations_map()` in
`__main__` (line 449) and read by the evaluator helpers as a global. -/
def operationsGlobal : OpsMap := create_operations_map

/-- The module-level name `functions`, assigned `create_functions_map()` in
`__main__` (line 450) and read by the evaluator helpers as a global. -/
def functionsGlobal : FnsMap := create_functions_map

/-! ## AST -/

/-- The source's `Node` class (a string tag plus `value`/`left`/`right`
fields), realized as the tagged variant its four tags encode.  `FUNCTION` and
`UNARY` nodes store their single child in `left`, matching
`create_function_node` and `create_unary_node`. -/
inductive Node where
  | number (value : Val)
  | operator (value : String) (left right : Node)
  | function (value : String) (left : Node)
  | unary (value : String) (left : Node)

/-- Accumulate a digit string into a natural number. -/
def natOfDigits (l : List Char) : ℕ :=
  l.foldl (fun n c => 10 * n + (c.toNat - '0'.toNat)) 0

/-- Python `float(value)` on a string matched by `\d+(\.\d+)?`, idealized as
the exact decimal value (only ever applied to such strings by the parser). -/
def ratOfNumString (s : String) : ℚ :=
  match s.data.dropWhile (fun c => c != '.') with
  | _ :: frac =>
      natOfDigits (s.data.takeWhile (fun c => c != '.')) +
        natOfDigits frac / 10 ^ frac.length
  | [] => natOfDigits s.data

/-- `create_number_node(value)`: `Node('NUMBER', float(value))`. -/
def create_number_node (value : String) : Node :=
  .number (.num ((ratOfNumString value : ℚ) : ℝ))

/-- `create_constant_node(value, constants)`: `Node('NUMBER',
constants[value])`; a missing key raises `KeyError`. -/
def create_constant_node (value : String) (constants : List (String × ℝ)) :
    Except PyErr Node :=
  match constants.lookup value with
  | none => .error (.keyError value)
  | some c => .ok (.number (.num c))

/-- `create_operator_node(operator, left, right)`. -/
def create_operator_node (operator : String) (left right : Node) : Node :=
  .operator operator left right

/-- `create_function_node(func_name, argument)`. -/
def create_function_node (func_name : String) (argument : Node) : Node :=
  .function func_name argument

/-- `create_unary_node(operator, argument)`. -/
def create_unary_node (operator : String) (argument : Node) : Node :=
  .unary operator argument

/-! ## Parser (`build_syntax_tree` and helpers, lines 87–283) -/

/-- `should_be_unary` (lines 87–102): a `+`/`-` OPERATOR token is unary when
there is no previous token, when the previous token is the paren `'('`, or
when the previous token is an OPERATOR.  (`value in '+-'` is Python substring
membership; on the single-character operator values it is equality with `"+"`
or `"-"`.) -/
def should_be_unary (current_token_type current_token_value : String)
    (previous_token_type previous_token_value : Option String) : Bool :=
  match previous_token_type with
  | none =>
      current_token_type == "OPERATOR" &&
        (current_token_value == "+" || current_token_value == "-")
  | some pt =>
      if pt == "PAREN" && previous_token_value == some "(" then
        current_token_type == "OPERATOR" &&
          (current_token_value == "+" || current_token_value == "-")
      else if pt == "OPERATOR" then
        current_token_type == "OPERATOR" &&
          (current_token_value == "+" || current_token_value == "-")
      else false

/-- `process_unary_operator` (lines 104–108). -/
def process_unary_operator (token_value : String) : String :=
  if token_value = "-" then "u-" else "u+"

/-- `can_pop_operator` (lines 129–151).  `precedence[current_operator]`
raises `KeyError` when the current operator is missing (unreachable from the
lexer's token set, where operators are always in the map). -/
def can_pop_operator (current_operator : String) (operator_stack : List String)
    (precedence : List (String × Nat)) (right_associative : List String) :
    Except PyErr Bool :=
  match operator_stack with
  | [] => .ok false
  | top_operator :: _ =>
    if top_operator = "(" then .ok false
    else match precedence.lookup top_operator with
      | none => .ok false
      | some top_prec =>
        match precedence.lookup current_operator with
        | none => .error (.keyError current_operator)
        | some cur_prec =>
          if cur_prec < top_prec then .ok true
          else if top_prec = cur_prec then
            .ok (!(right_associative.contains current_operator))
          else .ok false

/-- `pop_operator_and_create_node` (lines 153–172), returning the new
`(operator_stack, output_stack)`.  A pop from an empty list raises
`IndexError`.  (The unused `precedence` parameter of the source is omitted.) -/
def pop_operator_and_create_node (operator_stack : List String)
    (output_stack : List Node) (functions : FnsMap) :
    Except PyErr (List String × List Node) :=
  match operator_stack with
  | [] => .error .indexError
  | operator :: rest_ops =>
    if (functions.lookup operator).isSome then
      match output_stack with
      | [] => .error .indexError
      | arg :: rest_out =>
          .ok (rest_ops, create_function_node operator arg :: rest_out)
    else if operator = "u-" || operator = "u+" then
      match output_stack with
      | [] => .error .indexError
      | arg :: rest_out =>
          .ok (rest_ops, create_unary_node operator arg :: rest_out)
    else
      match output_stack with
      | right :: left :: rest_out =>
          .ok (rest_ops, create_operator_node operator left right :: rest_out)
      | _ => .error .indexError

/-- The `while can_pop_operator(...)` loop in the OPERATOR branch of
`build_syntax_tree` (lines 248–255).  Fuel is initialized to the operator
stack height, which bounds the number of pops; at fuel `0` the stack is empty
and `can_pop_operator` would return `False` anyway. -/
def popWhile (fuel : Nat) (current_operator : String)
    (operator_stack : List String) (output_stack : List Node)
    (functions : FnsMap) (precedence : List (String × Nat))
    (right_associative : List String) :
    Except PyErr (List String × List Node) :=
  match can_pop_operator current_operator operator_stack precedence right_associative with
  | .error e => .error e
  | .ok false => .ok (operator_stack, output_stack)
  | .ok true =>
    match fuel with
    | 0 => .ok (operator_stack, output_stack)
    | fuel' + 1 =>
      match pop_operator_and_create_node operator_stack output_stack functions with
      | .error e => .error e
      | .ok (ops', outs') =>
          popWhile fuel' current_operator ops' outs' functions precedence right_associative

/-- `process_right_parenthesis` (lines 174–194): pop-and-reduce until the
matching `'('`; an emptied stack raises the unbalanced-parentheses
`ValueError`; after discarding `'('`, a function name on top wraps the most
recent output node in a function node.  Fuel as in `popWhile`. -/
def process_right_parenthesis (fuel : Nat) (operator_stack : List String)
    (output_stack : List Node) (functions : FnsMap) :
    Except PyErr (List String × List Node) :=
  match operator_stack with
  | [] => .error (.valueError "Несбалансированные скобки")
  | top :: rest =>
    if top = "(" then
      match rest with
      | f :: rest' =>
        if (functions.lookup f).isSome then
          match output_stack with
          | [] => .error .indexError
          | arg :: outs =>
              .ok (rest', create_function_node f arg :: outs)
        else .ok (rest, output_stack)
      | [] => .ok (rest, output_stack)
    else
      match fuel with
      | 0 => .error (.valueError "Несбалансированные скобки")
      | fuel' + 1 =>
        match pop_operator_and_create_node (top :: rest) output_stack functions with
        | .error e => .error e
        | .ok (ops', outs') => process_right_parenthesis fuel' ops' outs' functions

/-- The final `while operator_stack` drain of `build_syntax_tree`
(lines 271–278): a leftover `'('` raises the unbalanced-parentheses
`ValueError`; otherwise pop-and-reduce.  Fuel as in `popWhile`. -/
def drainOperators (fuel : Nat) (operator_stack : List String)
    (output_stack : List Node) (functions : FnsMap) :
    Except PyErr (List Node) :=
  match operator_stack with
  | [] => .ok output_stack
  | top :: rest =>
    if top = "(" then .error (.valueError "Несбалансированные скобки")
    else
      match fuel with
      | 0 => .ok output_stack
      | fuel' + 1 =>
        match pop_operator_and_create_node (top :: rest) output_stack functions with
        | .error e => .error e
        | .ok (ops', outs') => drainOperators fuel' ops' outs' functions

/-- The token loop of `build_syntax_tree` (lines 229–269).  The state is the
two stacks plus the previous token's type and value; for an OPERATOR token the
recorded previous value is the possibly unary-rewritten one, as in the source
(line 246 rebinds `token_value` before line 269 stores it).  A token matching
none of the branches (impossible for lexer output) is skipped, updating only
the previous-token state. -/
def buildLoop (tokens : List (String × String)) (output_stack : List Node)
    (operator_stack : List String)
    (previous_token_type previous_token_value : Option String)
    (constants : List (String × ℝ)) (functions : FnsMap)
    (precedence : List (String × Nat)) (right_associative : List String) :
    Except PyErr (List Node × List String) :=
  match tokens with
  | [] => .ok (output_stack, operator_stack)
  | (token_type, token_value) :: rest =>
    if token_type = "NUMBER" then
      buildLoop rest (create_number_node token_value :: output_stack)
        operator_stack (some token_type) (some token_value)
        constants functions precedence right_associative
    else if token_type = "CONSTANT" then
      match create_constant_node token_value constants with
      | .error e => .error e
      | .ok node =>
        buildLoop rest (node :: output_stack) operator_stack
          (some token_type) (some token_value)
          constants functions precedence right_associative
    else if token_type = "FUNCTION" then
      buildLoop rest output_stack (token_value :: operator_stack)
        (some token_type) (some token_value)
        constants functions precedence right_associative
    else if token_type = "OPERATOR" then
      let tv :=
        if should_be_unary token_type token_value
            previous_token_type previous_token_value then
          process_unary_operator token_value
        else token_value
      match popWhile operator_stack.length tv operator_stack output_stack
          functions precedence right_associative with
      | .error e => .error e
      | .ok (ops', outs') =>
        buildLoop rest outs' (tv :: ops') (some token_type) (some tv)
          constants functions precedence right_associative
    else if token_value = "(" then
      buildLoop rest output_stack ("(" :: operator_stack)
        (some token_type) (some token_value)
        constants functions precedence right_associative
    else if token_value = ")" then
      match process_right_parenthesis operator_stack.length operator_stack
          output_stack functions with
      | .error e => .error e
      | .ok (ops', outs') =>
        buildLoop rest outs' ops' (some token_type) (some token_value)
          constants functions precedence right_associative
    else
      buildLoop rest output_stack operator_stack
        (some token_type) (some token_value)
        constants functions precedence right_associative

/-- `build_syntax_tree` (lines 216–283): run the token loop from empty stacks,
drain the remaining operators, and require the output stack to hold exactly
one node, which is the result; any other count raises the tree-building
`ValueError`. -/
def build_syntax_tree (tokens : List (String × String))
    (constants : List (String × ℝ)) (functions : FnsMap)
    (precedence : List (String × Nat)) (right_associative : List String) :
    Except PyErr Node :=
  match buildLoop tokens [] [] none none constants functions precedence right_associative with
  | .error e => .error e
  | .ok (output_stack, operator_stack) =>
    match drainOperators operator_stack.length operator_stack output_stack functions with
    | .error e => .error e
    | .ok final_output =>
      match final_output with
      | [node] => .ok node
      | _ => .error (.valueError "Ошибка построения дерева")

/-! ## Evaluator (`evaluate_*`, lines 285–333)

The four evaluator helpers of the source are inlined one-per-arm.  The source
helpers `evaluate_operator_node`, `evaluate_function_node` and
`evaluate_unary_node` make their recursive calls with the MODULE-LEVEL
`operations`/`functions` globals, not with the tables their caller received:

* `evaluate_operator_node` (line 295–296) recurses with its `operations`
  parameter but the global `functions`;
* `evaluate_function_node` (line 304) recurses with the global `operations`
  and its `functions` parameter;
* `evaluate_unary_node` (line 309) recurses with both globals.

This embedding reproduces that behaviour exactly (`operationsGlobal` /
`functionsGlobal` are the `__main__` table values).  A dictionary lookup
`table[value]` raises `KeyError` when the key is missing; the trailing
`raise ValueError(f"Неизвестный тип узла: ...")` of the source is unreachable
over the tagged `Node` type. -/

def evaluate_expression_tree : Node → OpsMap → FnsMap → Except PyErr Val
  | .number value, _, _ =>
      -- evaluate_number_node: the value is always present in the tagged model
      .ok value
  | .operator value left right, operations, _ =>
      -- evaluate_operator_node; recursive calls use the global `functions`
      match evaluate_expression_tree left operations functionsGlobal with
      | .error e => .error e
      | .ok left_value =>
        match evaluate_expression_tree right operations functionsGlobal with
        | .error e => .error e
        | .ok right_value =>
          match operations.lookup value with
          | none => .error (.keyError value)
          | some f => .ok (f left_value right_value)
  | .function value left, _, functions =>
      -- evaluate_function_node; the recursive call uses the global `operations`
      match evaluate_expression_tree left operationsGlobal functions with
      | .error e => .error e
      | .ok argument_value =>
        match functions.lookup value with
        | none => .error (.keyError value)
        | some f => f argument_value
  | .unary value left, _, _ =>
      -- evaluate_unary_node; the recursive call uses both globals
      match evaluate_expression_tree left operationsGlobal functionsGlobal with
      | .error e => .error e
      | .ok argument_value =>
        if value = "u-" then .ok (Val.neg argument_value) else .ok argument_value

/-- `calculate_expression` (lines 365–381): tokenize, build the tree, then
evaluate it with the given operator and function tables. -/
def calculate_expression (expression : String) (constants : List (String × ℝ))
    (functions : FnsMap) (operations : OpsMap)
    (precedence : List (String × Nat)) (right_associative : List String) :
    Except PyErr Val :=
  match tokenize_expression expression with
  | .error e => .error e
  | .ok tokens =>
    match build_syntax_tree tokens constants functions precedence right_associative with
    | .error e => .error e
    | .ok tree => evaluate_expression_tree tree operations functions

/-- The pipeline exactly as wired in `__main__` (lines 446–452): every table
is the corresponding `create_*` map. -/
def calculate_main (expression : String) : Except PyErr Val :=
  calculate_expression expression create_constants_map create_functions_map
    create_operations_map create_precedence_map create_right_associative_set

end

/-- A function table for exercising table propagation: it binds `'abs'` to a
function that differs from the global table's entry (`v + 100` instead of
`|v|`). -/
noncomputable def probeFunctions : FnsMap :=
  [("abs", fun v => .ok (Val.add v (.num 100)))]

/-! ## Theorems -/

/-- Claim C2: for the unsupported token sequence `"3 +"` (a trailing binary
operator) the parser does NOT fail with a `ParseError` (`ValueError`): the
end-of-input drain pops the `'+'`, takes one operand off the output stack and
then pops the now-empty output stack, raising `IndexError`.  The same happens
through the whole pipeline.  This refutes the claim that parsing either
returns a node or fails with a `ParseError`. -/
theorem claim2_trailing_operator_pops_empty_stack :
    build_syntax_tree [("NUMBER", "3"), ("OPERATOR", "+")] create_constants_map
        create_functions_map create_precedence_map create_right_associative_set =
      .error .indexError ∧
    calculate_main "3 +" = .error .indexError :=
  ⟨rfl, rfl⟩

/-- Claim C1: the evaluator does NOT propagate the passed tables through every
recursive call.  With a functions table binding `'abs'` to `v + 100`,
evaluating the subtree `abs(-1)` directly yields `99`, but evaluating
`abs(-1) + 0` — whose operator arm recurses with the module-global `functions`
— yields `1` (the global `abs`): the same subtree under the same passed tables
produces different values depending on the surrounding node, so the result
depends on the ambient tables. -/
theorem claim1_evaluator_reads_global_tables :
    evaluate_expression_tree (.function "abs" (.number (.num (-1))))
        create_operations_map probeFunctions = .ok (.num 99) ∧
    evaluate_expression_tree
        (.operator "+" (.function "abs" (.number (.num (-1)))) (.number (.num 0)))
        create_operations_map probeFunctions = .ok (.num 1) := by
  constructor
  · simp [evaluate_expression_tree, probeFunctions, List.lookup, Val.add]
    norm_num
  · simp [evaluate_expression_tree, probeFunctions, operationsGlobal, functionsGlobal,
      create_operations_map, create_functions_map, List.lookup, Val.add, Val.absF]

/-- Claim C4 (counterexample): lexing `"sine"` DOES produce a `FUNCTION`
token `'sin'` followed by a `CONSTANT` token `'e'`: `re.match` anchors only
the start of the match, so the keyword `sin` is matched out of the longer
letter run. -/
theorem claim4_sine_lexes_as_sin_e :
    tokenize_expression "sine" = .ok [("FUNCTION", "sin"), ("CONSTANT", "e")] :=
  rfl

/-- Claim C4 (amended): function/constant keywords are matched as PREFIXES at
the current position, not as whole tokens: whatever follows, an input
beginning with `sin` always matches the `FUNCTION` pattern with exactly the
three characters `sin`, and consequently `"sine"` lexes as `FUNCTION 'sin'`
followed by `CONSTANT 'e'`. -/
theorem claim4_keyword_prefix_matching :
    (∀ rest : List Char, matchTokenAt ('s' :: 'i' :: 'n' :: rest) =
      some (some "FUNCTION", ['s', 'i', 'n'], rest)) ∧
    (∀ rest : List Char, match_token_at_position (String.mk ('s' :: 'i' :: 'n' :: rest)) 0 =
      some (some "FUNCTION", "sin", 3)) := by
  have h1 : ∀ rest : List Char, matchTokenAt ('s' :: 'i' :: 'n' :: rest) =
      some (some "FUNCTION", ['s', 'i', 'n'], rest) := by
    intro rest
    simp [matchTokenAt, show matchNumber ('s' :: 'i' :: 'n' :: rest) = none from rfl,
      firstMatchingKeyword, function_keywords, List.isPrefixOf]
  refine ⟨h1, fun rest => ?_⟩
  simp [match_token_at_position, h1,
    show (String.mk ('s' :: 'i' :: 'n' :: rest)).data = 's' :: 'i' :: 'n' :: rest from rfl,
    show String.mk ['s', 'i', 'n'] = "sin" from rfl]

/-- Claim C5: the power operator is right-associative through the full
pipeline: `"2 ^ 3 ^ 2"` evaluates to `2 ^ (3 ^ 2) = 512`, not to
`(2 ^ 3) ^ 2 = 64`. -/
theorem claim5_power_right_associative :
    calculate_main "2 ^ 3 ^ 2" = .ok (.num 512) ∧
    calculate_main "2 ^ 3 ^ 2" ≠ .ok (.num 64) := by
  have h1 : tokenize_expression "2 ^ 3 ^ 2" =
      .ok [("NUMBER", "2"), ("OPERATOR", "^"), ("NUMBER", "3"),
           ("OPERATOR", "^"), ("NUMBER", "2")] := rfl
  have h2 : build_syntax_tree [("NUMBER", "2"), ("OPERATOR", "^"), ("NUMBER", "3"),
        ("OPERATOR", "^"), ("NUMBER", "2")]
      create_constants_map create_functions_map create_precedence_map
      create_right_associative_set
      = .ok (create_operator_node "^" (create_number_node "2")
          (create_operator_node "^" (create_number_node "3") (create_number_node "2"))) := rfl
  have key : calculate_main "2 ^ 3 ^ 2" = .ok (.num 512) := by
    simp only [calculate_main, calculate_expression, h1, h2]
    simp [evaluate_expression_tree, create_operations_map, operationsGlobal,
      functionsGlobal, create_functions_map, create_number_node,
      create_operator_node, List.lookup, Val.pow,
      show ((ratOfNumString "2" : ℚ) : ℝ) = 2 by
        norm_num [show ratOfNumString "2" = 2 from by decide],
      show ((ratOfNumString "3" : ℚ) : ℝ) = 3 by
        norm_num [show ratOfNumString "3" = 3 from by decide]]
    norm_num
  refine ⟨key, ?_⟩
  rw [key]
  intro hcontra
  have : (512 : ℝ) = 64 := by injection hcontra with h; injection h
  norm_num at this

/-- Claim C6: a `+`/`-` OPERATOR token is reinterpreted as unary exactly when
there is no previous token, or the previous token is the paren `'('`, or the
previous token is an OPERATOR (which covers a preceding unary operator, since
the parser records the rewritten operator with type OPERATOR); and the full
pipeline evaluates `"3 + -2"` to `1`, `"-5 + 3"` to `-2` and `"-sin(pi/2)"`
to `-1` (exactly, in the idealized real semantics). -/
theorem claim6_unary_disambiguation :
    (∀ (v : String) (pt pv : Option String),
      should_be_unary "OPERATOR" v pt pv = true ↔
        ((v = "+" ∨ v = "-") ∧
          (pt = none ∨ (pt = some "PAREN" ∧ pv = some "(") ∨ pt = some "OPERATOR"))) ∧
    calculate_main "3 + -2" = .ok (.num 1) ∧
    calculate_main "-5 + 3" = .ok (.num (-2)) ∧
    calculate_main "-sin(pi/2)" = .ok (.num (-1)) := by
  refine ⟨?_, ?_, ?_, ?_⟩
  · intro v pt pv
    cases pt with
    | none => simp [should_be_unary]
    | some s =>
      by_cases h1 : s = "PAREN" <;> by_cases h2 : pv = some "(" <;>
        by_cases h3 : s = "OPERATOR" <;>
        simp_all [should_be_unary]
  · have h1 : tokenize_expression "3 + -2" =
        .ok [("NUMBER", "3"), ("OPERATOR", "+"), ("OPERATOR", "-"), ("NUMBER", "2")] := rfl
    have h2 : build_syntax_tree [("NUMBER", "3"), ("OPERATOR", "+"), ("OPERATOR", "-"), ("NUMBER", "2")]
        create_constants_map create_functions_map create_precedence_map
        create_right_associative_set
        = .ok (create_operator_node "+" (create_number_node "3")
            (create_unary_node "u-" (create_number_node "2"))) := rfl
    simp only [calculate_main, calculate_expression, h1, h2]
    simp [evaluate_expression_tree, create_operations_map, operationsGlobal,
      functionsGlobal, create_functions_map, create_number_node,
      create_operator_node, create_unary_node, List.lookup, Val.add, Val.neg]
    norm_num [show ratOfNumString "3" = 3 from by decide,
      show ratOfNumString "2" = 2 from by decide]
  · have h1 : tokenize_expression "-5 + 3" =
        .ok [("OPERATOR", "-"), ("NUMBER", "5"), ("OPERATOR", "+"), ("NUMBER", "3")] := rfl
    have h2 : build_syntax_tree [("OPERATOR", "-"), ("NUMBER", "5"), ("OPERATOR", "+"), ("NUMBER", "3")]
        create_constants_map create_functions_map create_precedence_map
        create_right_associative_set
        = .ok (create_operator_node "+" (create_unary_node "u-" (create_number_node "5"))
            (create_number_node "3")) := rfl
    simp only [calculate_main, calculate_expression, h1, h2]
    simp [evaluate_expression_tree, create_operations_map, operationsGlobal,
      functionsGlobal, create_functions_map, create_number_node,
      create_operator_node, create_unary_node, List.lookup, Val.add, Val.neg]
    norm_num [show ratOfNumString "5" = 5 from by decide,
      show ratOfNumString "3" = 3 from by decide]
  · have h1 : tokenize_expression "-sin(pi/2)" =
        .ok [("OPERATOR", "-"), ("FUNCTION", "sin"), ("PAREN", "("), ("CONSTANT", "pi"),
             ("OPERATOR", "/"), ("NUMBER", "2"), ("PAREN", ")")] := rfl
    have h2 : build_syntax_tree [("OPERATOR", "-"), ("FUNCTION", "sin"), ("PAREN", "("),
          ("CONSTANT", "pi"), ("OPERATOR", "/"), ("NUMBER", "2"), ("PAREN", ")")]
        create_constants_map create_functions_map create_precedence_map
        create_right_associative_set
        = .ok (create_unary_node "u-" (create_function_node "sin"
            (create_operator_node "/" (Node.number (Val.num Real.pi))
              (create_number_node "2")))) := rfl
    simp only [calculate_main, calculate_expression, h1, h2]
    simp [evaluate_expression_tree, create_operations_map, operationsGlobal,
      functionsGlobal, create_functions_map, create_number_node,
      create_operator_node, create_function_node, create_unary_node,
      List.lookup, Val.div, Val.divIEEE, Val.sinF, Val.neg,
      show ((ratOfNumString "2" : ℚ) : ℝ) = 2 by
        norm_num [show ratOfNumString "2" = 2 from by decide]]

/-- Claim C7: the `'/'` entry of the operations map sends EVERY dividend with
an exactly-zero divisor to positive infinity (the guard tests only the
divisor), and the full pipeline evaluates `"1/0"`, `"-1/0"` and `"0/0"` to
`inf` without an error. -/
theorem claim7_division_by_zero :
    create_operations_map.lookup "/" = some Val.div ∧
    (∀ a : Val, Val.div a (.num 0) = .inf) ∧
    calculate_main "1/0" = .ok .inf ∧
    calculate_main "-1/0" = .ok .inf ∧
    calculate_main "0/0" = .ok .inf := by
  have hz : ∀ a : Val, Val.div a (.num 0) = .inf := by
    intro a; simp [Val.div]
  refine ⟨by simp [create_operations_map, List.lookup], hz, ?_, ?_, ?_⟩
  · have h1 : tokenize_expression "1/0" =
        .ok [("NUMBER", "1"), ("OPERATOR", "/"), ("NUMBER", "0")] := rfl
    have h2 : build_syntax_tree [("NUMBER", "1"), ("OPERATOR", "/"), ("NUMBER", "0")]
        create_constants_map create_functions_map create_precedence_map
        create_right_associative_set
        = .ok (create_operator_node "/" (create_number_node "1") (create_number_node "0")) := rfl
    simp only [calculate_main, calculate_expression, h1, h2]
    simp [evaluate_expression_tree, create_operations_map, operationsGlobal,
      functionsGlobal, create_functions_map, create_number_node,
      create_operator_node, List.lookup, Val.div,
      show ((ratOfNumString "0" : ℚ) : ℝ) = 0 by
        norm_num [show ratOfNumString "0" = 0 from by decide]]
  · have h1 : tokenize_expression "-1/0" =
        .ok [("OPERATOR", "-"), ("NUMBER", "1"), ("OPERATOR", "/"), ("NUMBER", "0")] := rfl
    have h2 : build_syntax_tree [("OPERATOR", "-"), ("NUMBER", "1"), ("OPERATOR", "/"), ("NUMBER", "0")]
        create_constants_map create_functions_map create_precedence_map
        create_right_associative_set
        = .ok (create_operator_node "/" (create_unary_node "u-" (create_number_node "1"))
            (create_number_node "0")) := rfl
    simp only [calculate_main, calculate_expression, h1, h2]
    simp [evaluate_expression_tree, create_operations_map, operationsGlobal,
      functionsGlobal, create_functions_map, create_number_node,
      create_operator_node, create_unary_node, List.lookup, Val.div, Val.neg,
      show ((ratOfNumString "0" : ℚ) : ℝ) = 0 by
        norm_num [show ratOfNumString "0" = 0 from by decide]]
  · have h1 : tokenize_expression "0/0" =
        .ok [("NUMBER", "0"), ("OPERATOR", "/"), ("NUMBER", "0")] := rfl
    have h2 : build_syntax_tree [("NUMBER", "0"), ("OPERATOR", "/"), ("NUMBER", "0")]
        create_constants_map create_functions_map create_precedence_map
        create_right_associative_set
        = .ok (create_operator_node "/" (create_number_node "0") (create_number_node "0")) := rfl
    simp only [calculate_main, calculate_expression, h1, h2]
    simp [evaluate_expression_tree, create_operations_map, operationsGlobal,
      functionsGlobal, create_functions_map, create_number_node,
      create_operator_node, List.lookup, Val.div,
      show ((ratOfNumString "0" : ℚ) : ℝ) = 0 by
        norm_num [show ratOfNumString "0" = 0 from by decide]]

/-- Claim C8: operator precedence and parenthesized grouping hold through the
full pipeline: `"3 + 5 * 2"` evaluates to `13` and `"(3 + 5) * 2"` to `16`. -/
theorem claim8_precedence_and_grouping :
    calculate_main "3 + 5 * 2" = .ok (.num 13) ∧
    calculate_main "(3 + 5) * 2" = .ok (.num 16) := by
  constructor
  · have h1 : tokenize_expression "3 + 5 * 2" =
        .ok [("NUMBER", "3"), ("OPERATOR", "+"), ("NUMBER", "5"),
             ("OPERATOR", "*"), ("NUMBER", "2")] := rfl
    have h2 : build_syntax_tree [("NUMBER", "3"), ("OPERATOR", "+"), ("NUMBER", "5"),
          ("OPERATOR", "*"), ("NUMBER", "2")]
        create_constants_map create_functions_map create_precedence_map
        create_right_associative_set
        = .ok (create_operator_node "+" (create_number_node "3")
            (create_operator_node "*" (create_number_node "5") (create_number_node "2"))) := rfl
    simp only [calculate_main, calculate_expression, h1, h2]
    simp [evaluate_expression_tree, create_operations_map, operationsGlobal,
      functionsGlobal, create_functions_map, create_number_node,
      create_operator_node, List.lookup, Val.add, Val.mul]
    norm_num [show ratOfNumString "3" = 3 from by decide,
      show ratOfNumString "5" = 5 from by decide,
      show ratOfNumString "2" = 2 from by decide]
  · have h1 : tokenize_expression "(3 + 5) * 2" =
        .ok [("PAREN", "("), ("NUMBER", "3"), ("OPERATOR", "+"), ("NUMBER", "5"),
             ("PAREN", ")"), ("OPERATOR", "*"), ("NUMBER", "2")] := rfl
    have h2 : build_syntax_tree [("PAREN", "("), ("NUMBER", "3"), ("OPERATOR", "+"),
          ("NUMBER", "5"), ("PAREN", ")"), ("OPERATOR", "*"), ("NUMBER", "2")]
        create_constants_map create_functions_map create_precedence_map
        create_right_associative_set
        = .ok (create_operator_node "*"
            (create_operator_node "+" (create_number_node "3") (create_number_node "5"))
            (create_number_node "2")) := rfl
    simp only [calculate_main, calculate_expression, h1, h2]
    simp [evaluate_expression_tree, create_operations_map, operationsGlobal,
      functionsGlobal, create_functions_map, create_number_node,
      create_operator_node, List.lookup, Val.add, Val.mul]
    norm_num [show ratOfNumString "3" = 3 from by decide,
      show ratOfNumString "5" = 5 from by decide,
      show ratOfNumString "2" = 2 from by decide]

/-- Claim C9 (counterexample): the synthetic unary symbol `'u-'` appears in
the precedence map (and in the right-associative set) but has NO entry in
either behavior map — it is not a key of the binary-operator map nor of the
function map.  (The same holds for `'u+'`.) -/
theorem claim9_unary_symbols_missing :
    "u-" ∈ create_precedence_map.map Prod.fst ∧
    "u-" ∈ create_right_associative_set ∧
    "u-" ∉ create_operations_map.map Prod.fst ∧
    "u-" ∉ create_functions_map.map Prod.fst ∧
    "u+" ∈ create_precedence_map.map Prod.fst ∧
    "u+" ∉ create_operations_map.map Prod.fst ∧
    "u+" ∉ create_functions_map.map Prod.fst := by
  refine ⟨?_, ?_, ?_, ?_, ?_, ?_, ?_⟩ <;>
    simp [create_precedence_map, create_right_associative_set,
      create_operations_map, create_functions_map]

/-- Claim C9 (amended): every symbol of the precedence map or the
right-associative set OTHER than the synthetic unary symbols `'u-'`/`'u+'`
has an entry in the binary-operator behavior map used at evaluation time; the
unary symbols are instead handled by dedicated code in `evaluate_unary_node`,
which consults no behavior map at all — a `UNARY` node evaluates the same way
under arbitrary operator and function tables. -/
theorem claim9_behavior_map_coverage :
    (∀ s : String,
      (s ∈ create_precedence_map.map Prod.fst ∨ s ∈ create_right_associative_set) →
      s ≠ "u-" → s ≠ "u+" →
      s ∈ create_operations_map.map Prod.fst) ∧
    (∀ (v : Val) (operations : OpsMap) (functions : FnsMap),
      evaluate_expression_tree (.unary "u-" (.number v)) operations functions =
        .ok (Val.neg v) ∧
      evaluate_expression_tree (.unary "u+" (.number v)) operations functions =
        .ok v) := by
  constructor
  · intro s hs hm hp
    simp [create_precedence_map, create_right_associative_set] at hs
    simp [create_operations_map]
    rcases hs with (h | h | h | h | h | h | h) | (h | h | h) <;> simp_all
  · intro v operations functions
    constructor <;> simp [evaluate_expression_tree]

/-- Witness for `claim9_behavior_map_coverage`: the right-associative symbol
`'^'` (which is neither unary symbol) is indeed a key of the binary-operator
map. -/
theorem claim9_behavior_map_coverage_witness :
    "^" ∈ create_operations_map.map Prod.fst :=
  claim9_behavior_map_coverage.1 "^"
    (Or.inr (by simp [create_right_associative_set])) (by decide) (by decide)

/-- A digit character is not matched by the whitespace class. -/
theorem digit_not_pyspace (c : Char) (h : c.isDigit = true) : isPySpace c = false := by
  by_contra hne
  have ht : isPySpace c = true := by
    cases hb : isPySpace c
    · exact absurd hb hne
    · rfl
  simp only [isPySpace, Bool.or_eq_true, decide_eq_true_eq] at ht
  rcases ht with ((((rfl | rfl) | rfl) | rfl) | rfl) | rfl <;> exact absurd h (by decide)

/-- A successful `matchNumber` splits the input into the matched characters
(nonempty, none of them whitespace) and the rest. -/
theorem matchNumber_split (s m r : List Char) (h : matchNumber s = some (m, r)) :
    s = m ++ r ∧ m ≠ [] ∧ m.all (fun c => !(isPySpace c)) = true := by
  have hAB := List.takeWhile_append_dropWhile (p := Char.isDigit) (l := s)
  have hall : (s.takeWhile Char.isDigit).all (fun c => !(isPySpace c)) = true := by
    rw [List.all_eq_true]
    intro c hc
    simp [digit_not_pyspace c (List.mem_takeWhile_imp hc)]
  simp only [matchNumber] at h
  split_ifs at h with hemp
  have hne : s.takeWhile Char.isDigit ≠ [] := by
    simpa [List.isEmpty_iff] using hemp
  split at h
  next r2 hdw =>
    split_ifs at h with hfemp
    · simp only [Option.some.injEq, Prod.mk.injEq] at h
      obtain ⟨rfl, rfl⟩ := h
      refine ⟨?_, hne, hall⟩
      rw [← hdw]
      exact hAB.symm
    · simp only [Option.some.injEq, Prod.mk.injEq] at h
      obtain ⟨rfl, rfl⟩ := h
      have hfAB := List.takeWhile_append_dropWhile (p := Char.isDigit) (l := r2)
      have hfall : (r2.takeWhile Char.isDigit).all (fun c => !(isPySpace c)) = true := by
        rw [List.all_eq_true]
        intro c hc
        simp [digit_not_pyspace c (List.mem_takeWhile_imp hc)]
      refine ⟨?_, by simp, ?_⟩
      · calc s = s.takeWhile Char.isDigit ++ s.dropWhile Char.isDigit := hAB.symm
          _ = s.takeWhile Char.isDigit ++ '.' :: r2 := by rw [hdw]
          _ = s.takeWhile Char.isDigit ++
              '.' :: (r2.takeWhile Char.isDigit ++ r2.dropWhile Char.isDigit) := by
                rw [hfAB]
          _ = (s.takeWhile Char.isDigit ++ '.' :: r2.takeWhile Char.isDigit) ++
              r2.dropWhile Char.isDigit := by simp
      · rw [List.all_append, hall]
        simp only [List.all_cons, hfall]
        simp [isPySpace]
  next r0 hdw =>
    simp only [Option.some.injEq, Prod.mk.injEq] at h
    obtain ⟨rfl, rfl⟩ := h
    exact ⟨hAB.symm, hne, hall⟩

/-- A successful keyword-alternation match splits the input and returns the
characters of one of the keywords. -/
theorem firstMatchingKeyword_split (kws : List String) (s m r : List Char)
    (h : firstMatchingKeyword kws s = some (m, r)) :
    s = m ++ r ∧ ∃ k ∈ kws, m = k.data := by
  induction kws with
  | nil => exact absurd h (by simp [firstMatchingKeyword])
  | cons k t ih =>
    simp only [firstMatchingKeyword] at h
    split_ifs at h with hp
    · simp only [Option.some.injEq, Prod.mk.injEq] at h
      obtain ⟨rfl, rfl⟩ := h
      have hpre : k.data <+: s := by simpa using hp
      obtain ⟨t2, ht2⟩ := hpre
      refine ⟨?_, k, by simp, rfl⟩
      rw [← ht2, List.drop_left]
    · obtain ⟨h1, k2, hk2, hm⟩ := ih h
      exact ⟨h1, k2, by simp [hk2], hm⟩

/-- A successful single-character-class match splits the input and returns one
character of the class. -/
theorem matchCharOf_split (chars s m r : List Char)
    (h : matchCharOf chars s = some (m, r)) :
    s = m ++ r ∧ ∃ c ∈ chars, m = [c] := by
  cases s with
  | nil => exact absurd h (by simp [matchCharOf])
  | cons c cs =>
    simp only [matchCharOf] at h
    split_ifs at h with hc
    simp only [Option.some.injEq, Prod.mk.injEq] at h
    obtain ⟨rfl, rfl⟩ := h
    exact ⟨rfl, c, hc, rfl⟩

/-- A successful `matchSpace` splits the input into a nonempty run of
whitespace and the rest. -/
theorem matchSpace_split (s m r : List Char) (h : matchSpace s = some (m, r)) :
    s = m ++ r ∧ m ≠ [] ∧ m.all isPySpace = true := by
  have hAB := List.takeWhile_append_dropWhile (p := isPySpace) (l := s)
  simp only [matchSpace] at h
  split_ifs at h with hemp
  simp only [Option.some.injEq, Prod.mk.injEq] at h
  obtain ⟨rfl, rfl⟩ := h
  refine ⟨hAB.symm, ?_, ?_⟩
  · simpa [List.isEmpty_iff] using hemp
  · rw [List.all_eq_true]
    exact fun c hc => List.mem_takeWhile_imp hc

/-- A successful `matchTokenAt` splits the input into the matched characters
and the rest; the match is nonempty, all whitespace for the discarded
whitespace pseudo-token (`tt = none`), and free of whitespace for every real
token. -/
theorem matchTokenAt_split (s : List Char) (tt : Option String) (m r : List Char)
    (h : matchTokenAt s = some (tt, m, r)) :
    s = m ++ r ∧ m ≠ [] ∧
      (tt = none → m.all isPySpace = true) ∧
      (tt ≠ none → m.all (fun c => !(isPySpace c)) = true) := by
  have hfk : ∀ k ∈ function_keywords,
      k.data ≠ [] ∧ k.data.all (fun c => !(isPySpace c)) = true := by decide
  have hck : ∀ k ∈ constant_keywords,
      k.data ≠ [] ∧ k.data.all (fun c => !(isPySpace c)) = true := by decide
  have hoc : ∀ c ∈ operator_chars, isPySpace c = false := by decide
  have hpc : ∀ c ∈ paren_chars, isPySpace c = false := by decide
  unfold matchTokenAt at h
  split at h
  next m0 r0 hm =>
    simp only [Option.some.injEq, Prod.mk.injEq] at h
    obtain ⟨rfl, rfl, rfl⟩ := h
    obtain ⟨h1, h2, h3⟩ := matchNumber_split s m0 r0 hm
    exact ⟨h1, h2, by simp, fun _ => h3⟩
  next hnum =>
  split at h
  next m0 r0 hm =>
    simp only [Option.some.injEq, Prod.mk.injEq] at h
    obtain ⟨rfl, rfl, rfl⟩ := h
    obtain ⟨h1, k, hk, rfl⟩ := firstMatchingKeyword_split _ s _ r0 hm
    exact ⟨h1, (hfk k hk).1, by simp, fun _ => (hfk k hk).2⟩
  next hfun =>
  split at h
  next m0 r0 hm =>
    simp only [Option.some.injEq, Prod.mk.injEq] at h
    obtain ⟨rfl, rfl, rfl⟩ := h
    obtain ⟨h1, k, hk, rfl⟩ := firstMatchingKeyword_split _ s _ r0 hm
    exact ⟨h1, (hck k hk).1, by simp, fun _ => (hck k hk).2⟩
  next hcon =>
  split at h
  next m0 r0 hm =>
    simp only [Option.some.injEq, Prod.mk.injEq] at h
    obtain ⟨rfl, rfl, rfl⟩ := h
    obtain ⟨h1, c, hc, rfl⟩ := matchCharOf_split _ s _ r0 hm
    exact ⟨h1, by simp, by simp, fun _ => by simp [hoc c hc]⟩
  next hop =>
  split at h
  next m0 r0 hm =>
    simp only [Option.some.injEq, Prod.mk.injEq] at h
    obtain ⟨rfl, rfl, rfl⟩ := h
    obtain ⟨h1, c, hc, rfl⟩ := matchCharOf_split _ s _ r0 hm
    exact ⟨h1, by simp, by simp, fun _ => by simp [hpc c hc]⟩
  next hpar =>
  split at h
  next m0 r0 hm =>
    simp only [Option.some.injEq, Prod.mk.injEq] at h
    obtain ⟨rfl, rfl, rfl⟩ := h
    obtain ⟨h1, h2, h3⟩ := matchSpace_split s m0 r0 hm
    exact ⟨h1, h2, fun _ => h3, by simp⟩
  next hsp => exact absurd h (by simp)

/-- The tokenizer loop, run with enough fuel, only drops whitespace: the
concatenated texts of the tokens it returns are the input minus its
whitespace. -/
theorem tokenizeLoop_concat (fuel : Nat) :
    ∀ (s : List Char) (tokens : List (String × String)),
      s.length ≤ fuel → tokenizeLoop fuel s = .ok tokens →
      (tokens.map fun t => t.2.data).flatten = s.filter (fun c => !(isPySpace c)) := by
  induction fuel with
  | zero =>
    intro s tokens hlen h
    cases s with
    | nil =>
      simp only [tokenizeLoop] at h
      cases h
      simp
    | cons c cs => simp at hlen
  | succ fuel ih =>
    intro s tokens hlen h
    cases s with
    | nil =>
      simp only [tokenizeLoop] at h
      cases h
      simp
    | cons c cs =>
      simp only [tokenizeLoop] at h
      split at h
      next hm => exact absurd h (by simp)
      next tt m rest hm =>
        obtain ⟨hsplit, hne, hsp, hnsp⟩ := matchTokenAt_split _ tt m rest hm
        have hrest : rest.length ≤ fuel := by
          have hlen2 : (c :: cs).length = m.length + rest.length := by
            rw [hsplit, List.length_append]
          have hm1 : 1 ≤ m.length := by
            cases m with
            | nil => exact absurd rfl hne
            | cons _ _ => simp
          simp only [List.length_cons] at hlen2 hlen
          omega
        split at h
        next e he => exact absurd h (by simp)
        next toks htoks =>
          have ihr := ih rest toks hrest htoks
          split at h
          next t =>
            cases h
            rw [hsplit, List.filter_append]
            have hmfilter : m.filter (fun c => !(isPySpace c)) = m :=
              List.filter_eq_self.mpr (by
                intro a ha
                exact List.all_eq_true.mp (hnsp (by simp)) a ha)
            simp only [List.map_cons, List.flatten_cons, hmfilter, ihr,
              show (String.mk m).data = m from rfl]
          next =>
            cases h
            rw [hsplit, List.filter_append]
            have hmfilter : m.filter (fun c => !(isPySpace c)) = [] := by
              rw [List.filter_eq_nil_iff]
              intro a ha
              have := List.all_eq_true.mp (hsp rfl) a ha
              simp_all
            rw [hmfilter, ihr]
            simp

/-- Claim C10: whenever the lexer succeeds, concatenating the text fields of
the produced tokens, in order, gives back exactly the input with its
whitespace characters removed (whitespace chunks are the only discarded
matches, and no token text contains a whitespace character). -/
theorem claim10_token_concat (expression : String) (tokens : List (String × String))
    (h : tokenize_expression expression = .ok tokens) :
    (tokens.map fun t => t.2.data).flatten =
      expression.data.filter (fun c => !(isPySpace c)) :=
  tokenizeLoop_concat expression.length expression.data tokens le_rfl h

/-- Witness for `claim10_token_concat` at the concrete input `"3 + 5"`. -/
theorem claim10_token_concat_witness :
    (([("NUMBER", "3"), ("OPERATOR", "+"), ("NUMBER", "5")].map
        fun t : String × String => t.2.data).flatten =
      "3 + 5".data.filter (fun c => !(isPySpace c))) :=
  claim10_token_concat "3 + 5" [("NUMBER", "3"), ("OPERATOR", "+"), ("NUMBER", "5")] rfl

/-- Claim C3 (counterexample): a `Call` of `'log'` — whose symbol IS present
in the function table — applied to the operand `0` does not return a float: it
raises the `ValueError("math domain error")` of the unguarded `math.log`. -/
theorem claim3_log_zero_raises :
    evaluate_expression_tree (.function "log" (.number (.num 0)))
      operationsGlobal functionsGlobal = .error (.valueError "math domain error") := by
  simp [evaluate_expression_tree, functionsGlobal, create_functions_map,
    List.lookup, Val.logF]

/-- Claim C3 (amended): a `Call` whose symbol is absent from the function
table does fail with a `KeyError` (the defensive re-check), but the presence
of a node's symbol does NOT guarantee that evaluation returns a float:
`'log'` is bound to the unguarded `math.log`, which raises
`ValueError("math domain error")` on every non-positive finite operand (in
particular on `0`) and returns a float on every positive finite operand.  So
evaluation failures are not limited to absent symbols and unrecognized tags,
and a `Call` of `'log'` does not succeed on every operand. -/
theorem claim3_present_symbol_can_fail :
    (∀ (name : String) (v : Val),
      List.lookup name functionsGlobal = none →
      evaluate_expression_tree (.function name (.number v))
        operationsGlobal functionsGlobal = .error (.keyError name)) ∧
    (∀ x : ℝ, x ≤ 0 →
      evaluate_expression_tree (.function "log" (.number (.num x)))
        operationsGlobal functionsGlobal = .error (.valueError "math domain error")) ∧
    (∀ x : ℝ, 0 < x →
      evaluate_expression_tree (.function "log" (.number (.num x)))
        operationsGlobal functionsGlobal = .ok (.num (Real.log x))) := by
  refine ⟨?_, ?_, ?_⟩
  · intro name v hname
    simp [evaluate_expression_tree, hname]
  · intro x hx
    have hnl : ¬(0 < x) := not_lt.mpr hx
    simp [evaluate_expression_tree, functionsGlobal, create_functions_map,
      List.lookup, Val.logF, hnl]
  · intro x hx
    simp [evaluate_expression_tree, functionsGlobal, create_functions_map,
      List.lookup, Val.logF, hx]

/-- Witness for `claim3_present_symbol_can_fail`: the missing-symbol case at
`'nosuch'`, the domain-error case at `log (-1)`, and the positive-operand
case at `log 1`. -/
theorem claim3_present_symbol_can_fail_witness :
    evaluate_expression_tree (.function "nosuch" (.number (.num 0)))
      operationsGlobal functionsGlobal = .error (.keyError "nosuch") ∧
    evaluate_expression_tree (.function "log" (.number (.num (-1))))
      operationsGlobal functionsGlobal = .error (.valueError "math domain error") ∧
    evaluate_expression_tree (.function "log" (.number (.num 1)))
      operationsGlobal functionsGlobal = .ok (.num (Real.log 1)) :=
  ⟨claim3_present_symbol_can_fail.1 "nosuch" (.num 0) rfl,
    claim3_present_symbol_can_fail.2.1 (-1) (by norm_num),
    claim3_present_symbol_can_fail.2.2 1 one_pos⟩
